import Mathlib

/-!
Shallow embedding of the SafeExpress logistics tracking client
(src/tracking_api.py, src/status_normalizer.py, src/config.py).

Python strings are modelled as Lean `String`, JSON-absent keys read with
`.get(k, default)` as `Option` fields read with `getD`, `datetime` values as
seconds since the Unix epoch (`Int`), and the network as a function from the
attempt number to that attempt's outcome.  Async sleeps are recorded as a
list of slept delays so that the retry/backoff schedule is observable.
-/

namespace SafeExpress

/-! ### Configuration (src/config.py)

The retry and staleness constants imported by tracking_api.py.  They are
gathered into one structure so that theorems can quantify over them; the
concrete values of src/config.py are `defaultConfig`. -/

structure Config where
  MAX_RETRIES : Nat
  RETRY_DELAY : Nat
  RETRY_BACKOFF_FACTOR : Nat
  LOST_THRESHOLD_DAYS : Nat
deriving Repr, DecidableEq

/-- The values set in src/config.py lines 26 and 49–51. -/
def defaultConfig : Config :=
  { MAX_RETRIES := 3
    RETRY_DELAY := 1
    RETRY_BACKOFF_FACTOR := 2
    LOST_THRESHOLD_DAYS := 30 }

/-! ### Python string primitives used by status_normalizer.py -/

/-- Python `str.lower()` (ASCII fragment, which is all the table needs). -/
def pyLower (s : String) : String := (s.toList.map Char.toLower).asString

/-- The whitespace characters Python `str.strip()` removes (ASCII). -/
def pyIsSpace (c : Char) : Bool :=
  c = ' ' || c = '\t' || c = '\n' || c = '\r' || c = '\x0b' || c = '\x0c'

/-- Python `str.strip()` with no argument: remove leading and trailing
whitespace. -/
def pyStrip (s : String) : String :=
  ((s.toList.dropWhile pyIsSpace).reverse.dropWhile pyIsSpace).reverse.asString

/-- Python `str.title()`: the first letter of every maximal run of letters is
upper-cased and the remaining letters of the run are lower-cased; non-letter
characters pass through and end the current run. -/
def pyTitle (s : String) : String :=
  (s.toList.foldl
    (fun (acc : List Char × Bool) c =>
      if c.isAlpha then
        (acc.1 ++ [if acc.2 then c.toLower else c.toUpper], true)
      else
        (acc.1 ++ [c], false))
    ([], false)).1.asString

/-! ### status_normalizer.py -/

/-- The `status_map` dictionary of `normalize_status`
(src/status_normalizer.py lines 30–37), as an association list in the
source's insertion order. -/
def status_map : List (String × String) :=
  [("delivered", "Delivered"),
   ("in-transit", "In-transit"),
   ("in transit", "In-transit"),
   ("lost", "LOST"),
   ("out for delivery", "Out for Delivery"),
   ("not found", "NOT FOUND")]

/-- `normalize_status` (src/status_normalizer.py lines 6–40): empty input is
returned as `""`; otherwise the input, lower-cased and stripped, is looked up
in `status_map`, and an unmapped status falls back to `str.title()` of the
original text. -/
def normalize_status (status : String) : String :=
  if status = "" then ""
  else
    let status_lower := pyStrip (pyLower status)
    match status_map.find? (fun p => p.1 = status_lower) with
    | some p => p.2
    | none => pyTitle status

/-! ### Dates

`parse_tracking_response` parses `trackDate` with
`datetime.strptime(track_date_str, "%Y-%m-%d %H:%M:%S")` and compares it with
`datetime.now()`.  Datetimes are modelled as seconds since the Unix epoch. -/

/-- Gregorian leap-year test. -/
def isLeapYear (y : Nat) : Bool :=
  (y % 4 = 0 && y % 100 ≠ 0) || y % 400 = 0

/-- Number of days in month `m` of year `y` (months are 1-based). -/
def daysInMonth (y m : Nat) : Nat :=
  if m = 2 then (if isLeapYear y then 29 else 28)
  else if m = 4 ∨ m = 6 ∨ m = 9 ∨ m = 11 then 30
  else 31

/-- Days from 1970-01-01 to the civil date `y-m-d` (standard civil-calendar
conversion; `y ≥ 1`, `1 ≤ m ≤ 12`). -/
def daysFromCivil (y m d : Nat) : Int :=
  let y' := if m ≤ 2 then y - 1 else y
  let era := y' / 400
  let yoe := y' % 400
  let doy := (153 * (if m > 2 then m - 3 else m + 9) + 2) / 5 + d - 1
  let doe := yoe * 365 + yoe / 4 - yoe / 100 + doy
  (era * 146097 + doe : Int) - 719468

/-- Seconds since the Unix epoch of the civil datetime `y-m-d h:mi:s`. -/
def epochSeconds (y m d h mi s : Nat) : Int :=
  daysFromCivil y m d * 86400 + (h * 3600 + mi * 60 + s : Nat)

/-- Digit-string to number (`none` when empty or not all digits). -/
def digitsToNat? (cs : List Char) : Option Nat :=
  if cs ≠ [] ∧ cs.all Char.isDigit then
    some (cs.foldl (fun a c => a * 10 + (c.toNat - 48)) 0)
  else none

/-- Split a character list at every occurrence of `c` (the semantics of
`str.split(c)` for a one-character separator). -/
def splitOnChar (c : Char) : List Char → List (List Char)
  | [] => [[]]
  | x :: xs =>
    let r := splitOnChar c xs
    if x = c then [] :: r
    else
      match r with
      | [] => [[x]]
      | h :: t => (x :: h) :: t

/-- Model of the library call `datetime.strptime(s, "%Y-%m-%d %H:%M:%S")` for
zero-padded fields (the width the tracking API emits): a valid civil datetime
`YYYY-MM-DD HH:MM:SS` yields its epoch seconds, anything else yields `none`
(strptime raises, which parse_tracking_response catches). -/
def strptimeYmdHms (s : String) : Option Int :=
  match splitOnChar ' ' s.toList with
  | [datePart, timePart] =>
    match splitOnChar '-' datePart, splitOnChar ':' timePart with
    | [ys, ms, ds], [hs, mis, ss] =>
      if ys.length = 4 ∧ ms.length = 2 ∧ ds.length = 2 ∧
         hs.length = 2 ∧ mis.length = 2 ∧ ss.length = 2 then
        match digitsToNat? ys, digitsToNat? ms, digitsToNat? ds,
              digitsToNat? hs, digitsToNat? mis, digitsToNat? ss with
        | some y, some m, some d, some h, some mi, some sec =>
          if 1 ≤ y ∧ y ≤ 9999 ∧ 1 ≤ m ∧ m ≤ 12 ∧ 1 ≤ d ∧ d ≤ daysInMonth y m ∧
             h ≤ 23 ∧ mi ≤ 59 ∧ sec ≤ 61 then
            some (epochSeconds y m d h mi sec)
          else none
        | _, _, _, _, _, _ => none
      else none
    | _, _ => none
  | _ => none

/-! ### The tracking payload (wire response shape, §6 of the docs)

JSON keys that the code reads with `.get(key, default)` are `Option` fields
read with `getD`, so an absent key is `none`. -/

/-- One element of a tracking record's `"status"` list: the code reads
`status`, `trackDate` and `mode` with `.get(k, "")`. -/
structure StatusEntry where
  status : Option String
  trackDate : Option String
  mode : Option String
deriving Repr, DecidableEq

/-- One element of `data["tracking"]`; the code reads its `"status"` key with
`tracking.get("status", [])`. -/
structure TrackingRecord where
  status : Option (List StatusEntry)
deriving Repr, DecidableEq

/-- The `"data"` object; the code reads `["tracking"]` with
`.get("tracking", [])`. -/
structure DataField where
  tracking : Option (List TrackingRecord)
deriving Repr, DecidableEq

/-- The decoded top-level payload: `status`, `message` and `data` are read
with `.get`. -/
structure Payload where
  status : Option String
  message : Option String
  data : Option DataField
deriving Repr, DecidableEq

/-- `data.get("data", {}).get("tracking", [])` (src/tracking_api.py
line 174). -/
def payload_tracking (p : Payload) : List TrackingRecord :=
  match p.data with
  | none => []
  | some d => d.tracking.getD []

/-- The dictionaries returned by `fetch_tracking_status` and
`parse_tracking_response`: they always carry `lr_number` and `status`;
`track_date` and `mode` are present only on the success path, and `error` is
`None`/absent exactly on the success path. -/
structure TrackingResult where
  lr_number : String
  status : String
  track_date : Option String := none
  mode : Option String := none
  error : Option String := none
deriving Repr, DecidableEq

/-! ### parse_tracking_response (src/tracking_api.py lines 151–231)

`datetime.now()` is passed in as `now` (epoch seconds); the staleness check
at lines 210–215 is the inner conditional, kept as a named definition so the
business rule can be stated on its own.  `(datetime.now() - track_date).days`
is the floor of the difference in seconds divided by 86400, i.e. `Int.fdiv`.
The enclosing `try/except` of the Python function can only fire on payloads
outside the wire shape (e.g. a non-dict), which the typed payload excludes. -/

/-- Lines 210–215: an `"In-transit"` status whose parsed track date is more
than `LOST_THRESHOLD_DAYS` whole days old is rewritten to `"LOST"`; any other
status, or a missing parsed date, passes through. -/
def staleness_override (cfg : Config) (now : Int) (status_text : String)
    (track_date : Option Int) : String :=
  if status_text = "In-transit" then
    match track_date with
    | some d =>
      if Int.fdiv (now - d) 86400 > (cfg.LOST_THRESHOLD_DAYS : Int) then "LOST"
      else status_text
    | none => status_text
  else status_text

def parse_tracking_response (cfg : Config) (now : Int) (data : Payload)
    (lr_number : String) : TrackingResult :=
  if data.status ≠ some "Ok" then
    { lr_number := lr_number
      status := "NOT FOUND"
      error := some (data.message.getD "Invalid API response") }
  else
    match payload_tracking data with
    | [] =>
      { lr_number := lr_number
        status := "NOT FOUND"
        error := some "No tracking data" }
    | tracking :: _ =>
      match tracking.status.getD [] with
      | [] =>
        { lr_number := lr_number
          status := "NOT FOUND"
          error := some "No status information" }
      | e :: es =>
        let latest_status := (e :: es).getLast (List.cons_ne_nil e es)
        let status_text := normalize_status (latest_status.status.getD "")
        let track_date_str := latest_status.trackDate.getD ""
        let track_date : Option Int :=
          if track_date_str ≠ "" then strptimeYmdHms track_date_str else none
        { lr_number := lr_number
          status := staleness_override cfg now status_text track_date
          track_date := some track_date_str
          mode := some (latest_status.mode.getD "")
          error := none }

/-! ### fetch_tracking_status (src/tracking_api.py lines 27–148)

One network attempt (the `session.post` plus reading and decoding the body)
resolves to one `AttemptOutcome`; the environment is a function from the
attempt's `retry_count` to that attempt's outcome.  The function returns the
result dictionary together with the list of delays passed to
`asyncio.sleep`, in the order they were slept — one delay per retry. -/

/-- What one attempt of the network call can come to.
* `ok p`: HTTP 200 with a non-empty body that decodes to payload `p`.
* `emptyBody`: HTTP 200 with an empty/whitespace body — the code raises and
  catches `ValueError` (line 76).
* `invalidJson`: HTTP 200 with a body `json.loads` rejects
  (`json.JSONDecodeError`).
* `parseCrash name msg`: HTTP 200 but an unexpected exception while reading
  or decoding the body (the `except Exception` at line 104).
* `httpError code`: `response.status != 200`.
* `timeoutError`: `asyncio.TimeoutError`.
* `clientError name`: `aiohttp.ClientError` of class `name`.
* `otherError name msg`: any other exception around the request (the
  `except Exception` at line 142). -/
inductive AttemptOutcome where
  | ok (p : Payload)
  | emptyBody
  | invalidJson
  | parseCrash (name msg : String)
  | httpError (code : Nat)
  | timeoutError
  | clientError (name : String)
  | otherError (name msg : String)
deriving Repr, DecidableEq

/-- The Python exception class name raised for each of the two retriable
body failures (`ValueError` for an empty body, `json.JSONDecodeError` for
undecodable text); used in the terminal error message at line 102. -/
def bodyErrorName : AttemptOutcome → String
  | .invalidJson => "JSONDecodeError"
  | _ => "ValueError"

def fetch_tracking_status (cfg : Config) (now : Int)
    (net : Nat → AttemptOutcome) (lr_number : String) (retry_count : Nat) :
    TrackingResult × List Nat :=
  match net retry_count with
  | .ok p => (parse_tracking_response cfg now p lr_number, [])
  | .emptyBody | .invalidJson =>
    if h : retry_count < cfg.MAX_RETRIES then
      let delay := cfg.RETRY_DELAY * cfg.RETRY_BACKOFF_FACTOR ^ retry_count
      let rest := fetch_tracking_status cfg now net lr_number (retry_count + 1)
      (rest.1, delay :: rest.2)
    else
      ({ lr_number := lr_number
         status := "ERROR"
         error := some ("JSON parse error after retries: " ++
           bodyErrorName (net retry_count)) }, [])
  | .parseCrash name msg =>
    ({ lr_number := lr_number
       status := "ERROR"
       error := some ("Parse error: " ++ name ++ " - " ++ msg) }, [])
  | .httpError code =>
    ({ lr_number := lr_number
       status := "ERROR"
       error := some ("HTTP " ++ toString code) }, [])
  | .timeoutError =>
    if h : retry_count < cfg.MAX_RETRIES then
      let delay := cfg.RETRY_DELAY * cfg.RETRY_BACKOFF_FACTOR ^ retry_count
      let rest := fetch_tracking_status cfg now net lr_number (retry_count + 1)
      (rest.1, delay :: rest.2)
    else
      ({ lr_number := lr_number
         status := "ERROR"
         error := some "API Timeout (after retries)" }, [])
  | .clientError name =>
    if h : retry_count < cfg.MAX_RETRIES then
      let delay := cfg.RETRY_DELAY * cfg.RETRY_BACKOFF_FACTOR ^ retry_count
      let rest := fetch_tracking_status cfg now net lr_number (retry_count + 1)
      (rest.1, delay :: rest.2)
    else
      ({ lr_number := lr_number
         status := "ERROR"
         error := some ("HTTP Error: " ++ name ++ " (after retries)") }, [])
  | .otherError name msg =>
    ({ lr_number := lr_number
       status := "ERROR"
       error := some (name ++ ": " ++ msg) }, [])
termination_by cfg.MAX_RETRIES - retry_count
decreasing_by all_goals omega

/-! ### track_multiple_lr_numbers (src/tracking_api.py lines 234–272)

`asyncio.gather(*tasks, return_exceptions=True)` yields, in task creation
order, either each task's returned dictionary or the exception it raised;
`TaskOutcome` is that sum.  The backend (what one task's
`fetch_with_semaphore` comes to for a given identifier) is a function from
identifiers to outcomes.  The Python result dictionary is modelled as an
insertion-ordered association list with last-write-wins update, which is
exactly `dict.__setitem__`. -/

/-- One element of the list returned by `asyncio.gather(...,
return_exceptions=True)`: a result dictionary, or the exception a task
raised. -/
inductive TaskOutcome where
  | ok (r : TrackingResult)
  | exn (msg : String)
deriving Repr, DecidableEq

/-- `results[k] = v` on a Python dict: overwrite in place when the key is
present, append otherwise. -/
def dictInsert (d : List (String × TrackingResult)) (k : String)
    (v : TrackingResult) : List (String × TrackingResult) :=
  if d.any (fun p => p.1 = k) then
    d.map (fun p => if p.1 = k then (k, v) else p)
  else d ++ [(k, v)]

/-- The keys of the result dictionary, in insertion order. -/
def dictKeys (d : List (String × TrackingResult)) : List String :=
  d.map (fun p => p.1)

/-- The aggregation loop at lines 263–270: an outcome that is an exception is
logged and skipped; otherwise `response.get("lr_number")` keys the entry,
and a falsy (empty) key is likewise skipped. -/
def build_results (responses : List TaskOutcome) :
    List (String × TrackingResult) :=
  responses.foldl
    (fun results response =>
      match response with
      | .exn _ => results
      | .ok r => if r.lr_number ≠ "" then dictInsert results r.lr_number r
                 else results)
    []

/-- `track_multiple_lr_numbers`: one task per list entry (duplicates
included), gathered in task order, aggregated by `build_results`.  The
semaphore bounds how many tasks run at once but does not affect which
outcomes are gathered, so it has no observable effect here. -/
def track_multiple_lr_numbers (backend : String → TaskOutcome)
    (lr_numbers : List String) : List (String × TrackingResult) :=
  build_results (lr_numbers.map backend)

/-! #### Completion-order model

Tasks finish in some schedule order (a permutation of the task indices);
`asyncio.gather` nevertheless hands the outcomes back in task creation
order.  `gatherInOrder` makes that reassembly explicit so that independence
from the schedule is a statement, not a modelling assumption. -/

/-- The completion log: for each index in the schedule, the pair of the task
index and that task's outcome, in completion order. -/
def completionLog (sched : List Nat) (outs : List TaskOutcome) :
    List (Nat × TaskOutcome) :=
  sched.filterMap (fun i => (outs.get? i).map (fun o => (i, o)))

/-- Reassemble the completion log into task creation order, as
`asyncio.gather` does. -/
def gatherInOrder (sched : List Nat) (outs : List TaskOutcome) :
    List TaskOutcome :=
  (List.range outs.length).filterMap
    (fun j => ((completionLog sched outs).find? (fun p => p.1 = j)).map
      (fun p => p.2))

/-- `track_multiple_lr_numbers` run under an explicit completion schedule. -/
def track_multiple_sched (sched : List Nat) (backend : String → TaskOutcome)
    (lr_numbers : List String) : List (String × TrackingResult) :=
  build_results (gatherInOrder sched (lr_numbers.map backend))

/-! ### Concrete test fixtures and classification helpers -/

/-- A well-formed payload whose single (hence latest) status entry is
`"IN-TRANSIT"` (normalized `"In-transit"`) dated `d`; used to exercise the
staleness rule through `parse_tracking_response`. -/
def sampleInTransitPayload (d : String) : Payload :=
  { status := some "Ok"
    message := none
    data := some { tracking := some [{ status := some [
      { status := some "IN-TRANSIT", trackDate := some d,
        mode := some "Road" }] }] } }

/-- The four transient (retried) outcome shapes: empty body, undecodable
body, request timeout, low-level transport error. -/
def isTransient : AttemptOutcome → Bool
  | .emptyBody | .invalidJson | .timeoutError | .clientError _ => true
  | _ => false

/-- A well-formed payload whose single status entry is `"Delivered"`. -/
def deliveredPayload : Payload :=
  { status := some "Ok"
    message := none
    data := some { tracking := some [{ status := some [
      { status := some "Delivered",
        trackDate := some "2026-01-05 10:00:00",
        mode := some "Road" }] }] } }

/-- The fetch scenario of §8 of the docs: three consecutive empty-body
responses followed by a valid response. -/
def emptyThenValid : Nat → AttemptOutcome :=
  fun i => if i < 3 then .emptyBody else .ok deliveredPayload

/-! ## Theorems -/

/-- C8: `normalize_status` is pure and, case-insensitively (after stripping),
maps the fixed table entries to their canonical forms; any non-empty text
whose lower-cased, stripped form is not in the table is converted to Python
title case; empty input returns the empty string; and in particular
`normalize("DELIVERED") = "Delivered"`, `normalize("in transit") =
"In-transit"` and `normalize("Weird Status") = "Weird Status"`. -/
theorem claim_C8_normalize_status :
    normalize_status "" = "" ∧
    (∀ s : String, s ≠ "" → ∀ kv, kv ∈ status_map →
      pyStrip (pyLower s) = kv.1 → normalize_status s = kv.2) ∧
    (∀ s : String, s ≠ "" → (∀ kv ∈ status_map, pyStrip (pyLower s) ≠ kv.1) →
      normalize_status s = pyTitle s) ∧
    normalize_status "DELIVERED" = "Delivered" ∧
    normalize_status "in transit" = "In-transit" ∧
    normalize_status "Weird Status" = "Weird Status" := by
  refine ⟨rfl, ?_, ?_, by decide, by decide, by decide⟩
  · intro s hs kv hkv hk
    fin_cases hkv <;> simp [normalize_status, hs, hk, status_map]
  · intro s hs hmiss
    have hfind : status_map.find? (fun p => p.1 = pyStrip (pyLower s)) = none := by
      rw [List.find?_eq_none]
      intro kv hkv
      simp only [decide_eq_true_eq]
      exact fun h => hmiss kv hkv h.symm
    simp [normalize_status, hs, hfind]

/-- Witness for C8: the case-insensitive table rule at `"  LOST "` (whose
lower-cased strip is the table key `"lost"`), and the title-case fallback at
`"weird status"`. -/
theorem claim_C8_normalize_status_witness :
    normalize_status "  LOST " = "LOST" ∧
    normalize_status "weird status" = pyTitle "weird status" :=
  ⟨claim_C8_normalize_status.2.1 "  LOST " (by decide)
      ("lost", "LOST") (by decide) (by decide),
   claim_C8_normalize_status.2.2.1 "weird status" (by decide) (by decide)⟩

/-- C5: the three rejection rules of `parse_tracking_response`, in priority
order: a payload whose top-level status is not `"Ok"` yields `"NOT FOUND"`
with the payload's message (default `"Invalid API response"`) as error,
regardless of the data contents; an absent or empty tracking collection
yields `"NOT FOUND"` / `"No tracking data"`; an empty status-event list in
the first tracking record yields `"NOT FOUND"` / `"No status information"`.
In each case the error field is literally `some _`, hence non-null. -/
theorem claim_C5_parse_rejections :
    ∀ (cfg : Config) (now : Int) (p : Payload) (lr : String),
    (p.status ≠ some "Ok" →
      parse_tracking_response cfg now p lr =
        { lr_number := lr, status := "NOT FOUND",
          error := some (p.message.getD "Invalid API response") }) ∧
    (p.status = some "Ok" → payload_tracking p = [] →
      parse_tracking_response cfg now p lr =
        { lr_number := lr, status := "NOT FOUND",
          error := some "No tracking data" }) ∧
    (∀ rec rest, p.status = some "Ok" → payload_tracking p = rec :: rest →
      rec.status.getD [] = [] →
      parse_tracking_response cfg now p lr =
        { lr_number := lr, status := "NOT FOUND",
          error := some "No status information" }) := by
  intro cfg now p lr
  refine ⟨?_, ?_, ?_⟩
  · intro h
    simp [parse_tracking_response, h]
  · intro h ht
    simp [parse_tracking_response, h, ht]
  · intro rec rest h ht hs
    simp [parse_tracking_response, h, ht, hs]

/-- Witness for C5: all three rejection rules evaluated on concrete
payloads. -/
theorem claim_C5_parse_rejections_witness :
    parse_tracking_response defaultConfig 0
        { status := some "Fail", message := some "bad id", data := none } "L1" =
      { lr_number := "L1", status := "NOT FOUND", error := some "bad id" } ∧
    parse_tracking_response defaultConfig 0
        { status := some "Ok", message := none, data := none } "L2" =
      { lr_number := "L2", status := "NOT FOUND",
        error := some "No tracking data" } ∧
    parse_tracking_response defaultConfig 0
        { status := some "Ok", message := none,
          data := some { tracking := some [{ status := none }] } } "L3" =
      { lr_number := "L3", status := "NOT FOUND",
        error := some "No status information" } :=
  ⟨(claim_C5_parse_rejections defaultConfig 0
      { status := some "Fail", message := some "bad id", data := none } "L1").1
      (by decide),
   (claim_C5_parse_rejections defaultConfig 0
      { status := some "Ok", message := none, data := none } "L2").2.1
      rfl (by decide),
   (claim_C5_parse_rejections defaultConfig 0
      { status := some "Ok", message := none,
        data := some { tracking := some [{ status := none }] } } "L3").2.2
      { status := none } [] rfl (by decide) (by decide)⟩

/-- C6: on a well-formed payload (`status = "Ok"`, non-empty tracking
collection, non-empty status-event list in the first record)
`parse_tracking_response` consults the last status entry, normalizes its
status text, parses its date text with `%Y-%m-%d %H:%M:%S`, and returns the
identifier, the staleness-adjusted status, the raw `trackDate` text and the
entry's mode with a null error; a date-parse failure is non-fatal and leaves
the normalized status un-overridden. -/
theorem claim_C6_parse_success :
    ∀ (cfg : Config) (now : Int) (p : Payload) (lr : String)
      (rec : TrackingRecord) (rest : List TrackingRecord)
      (e : StatusEntry) (es : List StatusEntry),
    p.status = some "Ok" → payload_tracking p = rec :: rest →
    rec.status.getD [] = e :: es →
    let latest := (e :: es).getLast (List.cons_ne_nil e es)
    let raw := latest.trackDate.getD ""
    let parsed : Option Int := if raw ≠ "" then strptimeYmdHms raw else none
    parse_tracking_response cfg now p lr =
      { lr_number := lr
        status := staleness_override cfg now
          (normalize_status (latest.status.getD "")) parsed
        track_date := some raw
        mode := some (latest.mode.getD "")
        error := none } ∧
    (parsed = none →
      (parse_tracking_response cfg now p lr).status =
        normalize_status (latest.status.getD "")) := by
  intro cfg now p lr rec rest e es h ht hs
  have hmain : parse_tracking_response cfg now p lr =
      { lr_number := lr
        status := staleness_override cfg now
          (normalize_status (((e :: es).getLast
            (List.cons_ne_nil e es)).status.getD ""))
          (if ((e :: es).getLast (List.cons_ne_nil e es)).trackDate.getD "" ≠ ""
           then strptimeYmdHms
             (((e :: es).getLast (List.cons_ne_nil e es)).trackDate.getD "")
           else none)
        track_date :=
          some (((e :: es).getLast (List.cons_ne_nil e es)).trackDate.getD "")
        mode := some (((e :: es).getLast (List.cons_ne_nil e es)).mode.getD "")
        error := none } := by
    simp [parse_tracking_response, h, ht, hs]
  refine ⟨hmain, ?_⟩
  intro hparsed
  rw [hmain]
  simp only [hparsed, staleness_override]
  split <;> rfl

/-- Witness for C6: a concrete well-formed payload with two status entries —
the last one (status `"delivered"`, an unparseable date) wins, the date
failure is non-fatal, and the error is null. -/
theorem claim_C6_parse_success_witness :
    parse_tracking_response defaultConfig 0
        { status := some "Ok", message := none,
          data := some { tracking := some [{ status := some [
            { status := some "Booked",
              trackDate := some "2026-01-01 00:00:00",
              mode := some "Road" },
            { status := some "delivered", trackDate := some "not-a-date",
              mode := some "Air" }] }] } } "L9" =
      { lr_number := "L9", status := "Delivered",
        track_date := some "not-a-date", mode := some "Air", error := none } := by
  have h := claim_C6_parse_success defaultConfig 0
    { status := some "Ok", message := none,
      data := some { tracking := some [{ status := some [
        { status := some "Booked", trackDate := some "2026-01-01 00:00:00",
          mode := some "Road" },
        { status := some "delivered", trackDate := some "not-a-date",
          mode := some "Air" }] }] } } "L9"
    { status := some [
        { status := some "Booked", trackDate := some "2026-01-01 00:00:00",
          mode := some "Road" },
        { status := some "delivered", trackDate := some "not-a-date",
          mode := some "Air" }] } []
    { status := some "Booked", trackDate := some "2026-01-01 00:00:00",
      mode := some "Road" }
    [{ status := some "delivered", trackDate := some "not-a-date",
       mode := some "Air" }]
    rfl (by decide) (by decide)
  rw [h.1]
  decide

/-- C7: the staleness rule turns `"In-transit"` with a present parsed date
into `"LOST"` exactly when the age in whole days (floor of the difference
over 86400 s) strictly exceeds `LOST_THRESHOLD_DAYS`, and otherwise leaves
the status alone; a non-`"In-transit"` status or an absent date passes
through unchanged; the configured threshold is 30; and through the parser a
track date 35 days before now yields `"LOST"` while 10 days before now stays
`"In-transit"`. -/
theorem claim_C7_staleness_rule :
    (∀ (cfg : Config) (now d : Int),
      (staleness_override cfg now "In-transit" (some d) = "LOST" ↔
        Int.fdiv (now - d) 86400 > (cfg.LOST_THRESHOLD_DAYS : Int)) ∧
      (¬ Int.fdiv (now - d) 86400 > (cfg.LOST_THRESHOLD_DAYS : Int) →
        staleness_override cfg now "In-transit" (some d) = "In-transit")) ∧
    (∀ (cfg : Config) (now : Int) (st : String) (od : Option Int),
      st ≠ "In-transit" → staleness_override cfg now st od = st) ∧
    (∀ (cfg : Config) (now : Int) (st : String),
      staleness_override cfg now st none = st) ∧
    defaultConfig.LOST_THRESHOLD_DAYS = 30 ∧
    (parse_tracking_response defaultConfig (epochSeconds 2026 2 5 0 0 0)
      (sampleInTransitPayload "2026-01-01 00:00:00") "LR").status = "LOST" ∧
    (parse_tracking_response defaultConfig (epochSeconds 2026 1 11 0 0 0)
      (sampleInTransitPayload "2026-01-01 00:00:00") "LR").status =
        "In-transit" := by
  refine ⟨?_, ?_, ?_, rfl, by decide, by decide⟩
  · intro cfg now d
    constructor
    · simp only [staleness_override, if_pos rfl]
      constructor
      · intro h
        by_contra hc
        rw [if_neg hc] at h
        exact absurd h (by decide)
      · intro h
        simp [h]
    · intro h
      simp [staleness_override, h]
  · intro cfg now st od h
    simp [staleness_override, h]
  · intro cfg now st
    simp only [staleness_override]
    split <;> rfl

/-- Witness for C7: the rule applied at a 35-day-old date (3024000 s) marks
`"LOST"`, and a `"Delivered"` status passes through untouched. -/
theorem claim_C7_staleness_rule_witness :
    staleness_override defaultConfig 3024000 "In-transit" (some 0) = "LOST" ∧
    staleness_override defaultConfig 0 "Delivered" (some 99) = "Delivered" :=
  ⟨(claim_C7_staleness_rule.1 defaultConfig 3024000 0).1.mpr (by decide),
   claim_C7_staleness_rule.2.1 defaultConfig 0 "Delivered" (some 99)
     (by decide)⟩

/-! ### Helper lemmas about `parse_tracking_response` and
`fetch_tracking_status` -/

theorem parse_result_lr_number (cfg : Config) (now : Int) (p : Payload)
    (lr : String) : (parse_tracking_response cfg now p lr).lr_number = lr := by
  unfold parse_tracking_response
  split
  · rfl
  · split
    · rfl
    · split <;> rfl

theorem parse_error_imp_not_found (cfg : Config) (now : Int) (p : Payload)
    (lr : String) :
    (parse_tracking_response cfg now p lr).error ≠ none →
    (parse_tracking_response cfg now p lr).status = "NOT FOUND" := by
  unfold parse_tracking_response
  split
  · exact fun _ => rfl
  · split
    · exact fun _ => rfl
    · split
      · exact fun _ => rfl
      · exact fun h => absurd rfl h

/-- `parse_tracking_response` on a payload whose top-level status is not
`"Ok"` (the shape used by both the parser claims and the no-retry claim). -/
theorem parse_reject_not_ok (cfg : Config) (now : Int) (p : Payload)
    (lr : String) (h : p.status ≠ some "Ok") :
    parse_tracking_response cfg now p lr =
      { lr_number := lr, status := "NOT FOUND",
        error := some (p.message.getD "Invalid API response") } := by
  simp [parse_tracking_response, h]

/-! One-step unfolding equations for `fetch_tracking_status`, one per shape
of the current attempt's outcome. -/

theorem fetch_eq_ok (cfg : Config) (now : Int) (net : Nat → AttemptOutcome)
    (lr : String) (rc : Nat) (p : Payload) (h : net rc = .ok p) :
    fetch_tracking_status cfg now net lr rc =
      (parse_tracking_response cfg now p lr, []) := by
  rw [fetch_tracking_status, h]

theorem fetch_eq_parseCrash (cfg : Config) (now : Int)
    (net : Nat → AttemptOutcome) (lr : String) (rc : Nat) (name msg : String)
    (h : net rc = .parseCrash name msg) :
    fetch_tracking_status cfg now net lr rc =
      ({ lr_number := lr, status := "ERROR",
         error := some ("Parse error: " ++ name ++ " - " ++ msg) }, []) := by
  rw [fetch_tracking_status, h]

theorem fetch_eq_httpError (cfg : Config) (now : Int)
    (net : Nat → AttemptOutcome) (lr : String) (rc : Nat) (code : Nat)
    (h : net rc = .httpError code) :
    fetch_tracking_status cfg now net lr rc =
      ({ lr_number := lr, status := "ERROR",
         error := some ("HTTP " ++ toString code) }, []) := by
  rw [fetch_tracking_status, h]

theorem fetch_eq_otherError (cfg : Config) (now : Int)
    (net : Nat → AttemptOutcome) (lr : String) (rc : Nat) (name msg : String)
    (h : net rc = .otherError name msg) :
    fetch_tracking_status cfg now net lr rc =
      ({ lr_number := lr, status := "ERROR",
         error := some (name ++ ": " ++ msg) }, []) := by
  rw [fetch_tracking_status, h]

theorem fetch_eq_emptyBody (cfg : Config) (now : Int)
    (net : Nat → AttemptOutcome) (lr : String) (rc : Nat)
    (h : net rc = .emptyBody) :
    fetch_tracking_status cfg now net lr rc =
      (if _h : rc < cfg.MAX_RETRIES then
        ((fetch_tracking_status cfg now net lr (rc + 1)).1,
         cfg.RETRY_DELAY * cfg.RETRY_BACKOFF_FACTOR ^ rc ::
           (fetch_tracking_status cfg now net lr (rc + 1)).2)
      else
        ({ lr_number := lr, status := "ERROR",
           error := some "JSON parse error after retries: ValueError" },
         [])) := by
  rw [fetch_tracking_status, h]
  rfl

theorem fetch_eq_invalidJson (cfg : Config) (now : Int)
    (net : Nat → AttemptOutcome) (lr : String) (rc : Nat)
    (h : net rc = .invalidJson) :
    fetch_tracking_status cfg now net lr rc =
      (if _h : rc < cfg.MAX_RETRIES then
        ((fetch_tracking_status cfg now net lr (rc + 1)).1,
         cfg.RETRY_DELAY * cfg.RETRY_BACKOFF_FACTOR ^ rc ::
           (fetch_tracking_status cfg now net lr (rc + 1)).2)
      else
        ({ lr_number := lr, status := "ERROR",
           error := some "JSON parse error after retries: JSONDecodeError" },
         [])) := by
  rw [fetch_tracking_status, h]
  rfl

theorem fetch_eq_timeoutError (cfg : Config) (now : Int)
    (net : Nat → AttemptOutcome) (lr : String) (rc : Nat)
    (h : net rc = .timeoutError) :
    fetch_tracking_status cfg now net lr rc =
      (if _h : rc < cfg.MAX_RETRIES then
        ((fetch_tracking_status cfg now net lr (rc + 1)).1,
         cfg.RETRY_DELAY * cfg.RETRY_BACKOFF_FACTOR ^ rc ::
           (fetch_tracking_status cfg now net lr (rc + 1)).2)
      else
        ({ lr_number := lr, status := "ERROR",
           error := some "API Timeout (after retries)" }, [])) := by
  rw [fetch_tracking_status, h]

theorem fetch_eq_clientError (cfg : Config) (now : Int)
    (net : Nat → AttemptOutcome) (lr : String) (rc : Nat) (name : String)
    (h : net rc = .clientError name) :
    fetch_tracking_status cfg now net lr rc =
      (if _h : rc < cfg.MAX_RETRIES then
        ((fetch_tracking_status cfg now net lr (rc + 1)).1,
         cfg.RETRY_DELAY * cfg.RETRY_BACKOFF_FACTOR ^ rc ::
           (fetch_tracking_status cfg now net lr (rc + 1)).2)
      else
        ({ lr_number := lr, status := "ERROR",
           error := some ("HTTP Error: " ++ name ++ " (after retries)") },
         [])) := by
  rw [fetch_tracking_status, h]

/-- Per-level specification of `fetch_tracking_status`, by induction on the
remaining retry budget: the result always carries the requested identifier,
and an error-bearing result has status `"ERROR"` or `"NOT FOUND"`. -/
theorem fetch_spec_aux (cfg : Config) (now : Int) (net : Nat → AttemptOutcome)
    (lr : String) :
    ∀ (fuel rc : Nat), cfg.MAX_RETRIES - rc ≤ fuel →
      (fetch_tracking_status cfg now net lr rc).1.lr_number = lr ∧
      ((fetch_tracking_status cfg now net lr rc).1.error ≠ none →
        (fetch_tracking_status cfg now net lr rc).1.status = "ERROR" ∨
        (fetch_tracking_status cfg now net lr rc).1.status = "NOT FOUND") := by
  intro fuel
  induction fuel with
  | zero =>
    intro rc hrc
    have hge : ¬ rc < cfg.MAX_RETRIES := by omega
    cases hnet : net rc
    case ok p =>
      rw [fetch_eq_ok cfg now net lr rc p hnet]
      exact ⟨parse_result_lr_number cfg now p lr,
        fun he => Or.inr (parse_error_imp_not_found cfg now p lr he)⟩
    case emptyBody =>
      rw [fetch_eq_emptyBody cfg now net lr rc hnet, dif_neg hge]
      exact ⟨rfl, fun _ => Or.inl rfl⟩
    case invalidJson =>
      rw [fetch_eq_invalidJson cfg now net lr rc hnet, dif_neg hge]
      exact ⟨rfl, fun _ => Or.inl rfl⟩
    case timeoutError =>
      rw [fetch_eq_timeoutError cfg now net lr rc hnet, dif_neg hge]
      exact ⟨rfl, fun _ => Or.inl rfl⟩
    case clientError name =>
      rw [fetch_eq_clientError cfg now net lr rc name hnet, dif_neg hge]
      exact ⟨rfl, fun _ => Or.inl rfl⟩
    case parseCrash name msg =>
      rw [fetch_eq_parseCrash cfg now net lr rc name msg hnet]
      exact ⟨rfl, fun _ => Or.inl rfl⟩
    case httpError code =>
      rw [fetch_eq_httpError cfg now net lr rc code hnet]
      exact ⟨rfl, fun _ => Or.inl rfl⟩
    case otherError name msg =>
      rw [fetch_eq_otherError cfg now net lr rc name msg hnet]
      exact ⟨rfl, fun _ => Or.inl rfl⟩
  | succ n ih =>
    intro rc hrc
    cases hnet : net rc
    case ok p =>
      rw [fetch_eq_ok cfg now net lr rc p hnet]
      exact ⟨parse_result_lr_number cfg now p lr,
        fun he => Or.inr (parse_error_imp_not_found cfg now p lr he)⟩
    case emptyBody =>
      rw [fetch_eq_emptyBody cfg now net lr rc hnet]
      by_cases hlt : rc < cfg.MAX_RETRIES
      · rw [dif_pos hlt]
        exact ih (rc + 1) (by omega)
      · rw [dif_neg hlt]
        exact ⟨rfl, fun _ => Or.inl rfl⟩
    case invalidJson =>
      rw [fetch_eq_invalidJson cfg now net lr rc hnet]
      by_cases hlt : rc < cfg.MAX_RETRIES
      · rw [dif_pos hlt]
        exact ih (rc + 1) (by omega)
      · rw [dif_neg hlt]
        exact ⟨rfl, fun _ => Or.inl rfl⟩
    case timeoutError =>
      rw [fetch_eq_timeoutError cfg now net lr rc hnet]
      by_cases hlt : rc < cfg.MAX_RETRIES
      · rw [dif_pos hlt]
        exact ih (rc + 1) (by omega)
      · rw [dif_neg hlt]
        exact ⟨rfl, fun _ => Or.inl rfl⟩
    case clientError name =>
      rw [fetch_eq_clientError cfg now net lr rc name hnet]
      by_cases hlt : rc < cfg.MAX_RETRIES
      · rw [dif_pos hlt]
        exact ih (rc + 1) (by omega)
      · rw [dif_neg hlt]
        exact ⟨rfl, fun _ => Or.inl rfl⟩
    case parseCrash name msg =>
      rw [fetch_eq_parseCrash cfg now net lr rc name msg hnet]
      exact ⟨rfl, fun _ => Or.inl rfl⟩
    case httpError code =>
      rw [fetch_eq_httpError cfg now net lr rc code hnet]
      exact ⟨rfl, fun _ => Or.inl rfl⟩
    case otherError name msg =>
      rw [fetch_eq_otherError cfg now net lr rc name msg hnet]
      exact ⟨rfl, fun _ => Or.inl rfl⟩

/-- C2: for every configuration, network behaviour and identifier,
`fetch_tracking_status` resolves (its model is a total function — every
exception class of the Python code is one of the modelled outcomes and is
caught), the result carries the requested identifier, and whenever the
result bears an error its status is `"ERROR"` or `"NOT FOUND"`. -/
theorem claim_C2_fetch_never_throws :
    ∀ (cfg : Config) (now : Int) (net : Nat → AttemptOutcome) (lr : String)
      (rc : Nat),
      (fetch_tracking_status cfg now net lr rc).1.lr_number = lr ∧
      ((fetch_tracking_status cfg now net lr rc).1.error ≠ none →
        (fetch_tracking_status cfg now net lr rc).1.status = "ERROR" ∨
        (fetch_tracking_status cfg now net lr rc).1.status = "NOT FOUND") :=
  fun cfg now net lr rc =>
    fetch_spec_aux cfg now net lr cfg.MAX_RETRIES rc (by omega)

/-- Witness for C2: a run whose only attempt hits HTTP 500 still returns a
result for `"W1"`, with status `"ERROR"`. -/
theorem claim_C2_fetch_never_throws_witness :
    (fetch_tracking_status defaultConfig 0 (fun _ => .httpError 500) "W1"
        0).1.status = "ERROR" ∨
    (fetch_tracking_status defaultConfig 0 (fun _ => .httpError 500) "W1"
        0).1.status = "NOT FOUND" :=
  (claim_C2_fetch_never_throws defaultConfig 0 (fun _ => .httpError 500)
      "W1" 0).2
    (by simp [fetch_tracking_status])

/-- C4: a non-success HTTP status resolves immediately to an `"ERROR"`
result describing the status code, with an empty sleep list — no retry is
consumed; a well-formed 200-response whose payload reports an
application-level failure likewise resolves immediately to `"NOT FOUND"`
without retrying. -/
theorem claim_C4_terminal_failures_no_retry :
    ∀ (cfg : Config) (now : Int) (net : Nat → AttemptOutcome) (lr : String)
      (rc : Nat),
      (∀ code, net rc = .httpError code →
        fetch_tracking_status cfg now net lr rc =
          ({ lr_number := lr, status := "ERROR",
             error := some ("HTTP " ++ toString code) }, [])) ∧
      (∀ p, net rc = .ok p → p.status ≠ some "Ok" →
        fetch_tracking_status cfg now net lr rc =
          ({ lr_number := lr, status := "NOT FOUND",
             error := some (p.message.getD "Invalid API response") }, [])) := by
  intro cfg now net lr rc
  constructor
  · intro code h
    rw [fetch_tracking_status, h]
  · intro p h hp
    rw [fetch_eq_ok cfg now net lr rc p h,
      parse_reject_not_ok cfg now p lr hp]

/-- Witness for C4: HTTP 503 on the very first attempt, and a
`status := "Failure"` payload, both terminal with no slept delay. -/
theorem claim_C4_terminal_failures_no_retry_witness :
    fetch_tracking_status defaultConfig 0 (fun _ => .httpError 503) "W2" 0 =
      ({ lr_number := "W2", status := "ERROR",
         error := some "HTTP 503" }, []) ∧
    fetch_tracking_status defaultConfig 0
        (fun _ => .ok { status := some "Failure", message := none,
                        data := none }) "W3" 0 =
      ({ lr_number := "W3", status := "NOT FOUND",
         error := some "Invalid API response" }, []) :=
  ⟨(claim_C4_terminal_failures_no_retry defaultConfig 0
      (fun _ => .httpError 503) "W2" 0).1 503 rfl,
   (claim_C4_terminal_failures_no_retry defaultConfig 0
      (fun _ => .ok { status := some "Failure", message := none,
                      data := none }) "W3" 0).2
     { status := some "Failure", message := none, data := none } rfl
     (by decide)⟩

/-- Retry accounting for `fetch_tracking_status`, by induction on the
remaining retry budget: at most `MAX_RETRIES - retry_count` delays are ever
slept; the `i`-th slept delay (counting from the current level) is
`RETRY_DELAY * RETRY_BACKOFF_FACTOR ^ (retry_count + i)`; and under an
all-transient network the final result is a terminal `"ERROR"`. -/
theorem fetch_retry_aux (cfg : Config) (now : Int) (net : Nat → AttemptOutcome)
    (lr : String) :
    ∀ (fuel rc : Nat), cfg.MAX_RETRIES - rc ≤ fuel →
      (fetch_tracking_status cfg now net lr rc).2.length ≤
        cfg.MAX_RETRIES - rc ∧
      (∀ (i : Nat) (hi : i < (fetch_tracking_status cfg now net lr rc).2.length),
        (fetch_tracking_status cfg now net lr rc).2.get ⟨i, hi⟩ =
          cfg.RETRY_DELAY * cfg.RETRY_BACKOFF_FACTOR ^ (rc + i)) ∧
      ((∀ i, isTransient (net i) = true) →
        (fetch_tracking_status cfg now net lr rc).1.status = "ERROR" ∧
        (fetch_tracking_status cfg now net lr rc).1.error ≠ none) := by
  intro fuel
  induction fuel with
  | zero =>
    intro rc hrc
    have hge : ¬ rc < cfg.MAX_RETRIES := by omega
    cases hnet : net rc
    case ok p =>
      rw [fetch_eq_ok cfg now net lr rc p hnet]
      refine ⟨by simp, fun i hi => absurd hi (by simp), fun htrans => ?_⟩
      have := htrans rc
      rw [hnet] at this
      simp [isTransient] at this
    case emptyBody =>
      rw [fetch_eq_emptyBody cfg now net lr rc hnet, dif_neg hge]
      exact ⟨by simp, fun i hi => absurd hi (by simp),
        fun _ => ⟨rfl, by simp⟩⟩
    case invalidJson =>
      rw [fetch_eq_invalidJson cfg now net lr rc hnet, dif_neg hge]
      exact ⟨by simp, fun i hi => absurd hi (by simp),
        fun _ => ⟨rfl, by simp⟩⟩
    case timeoutError =>
      rw [fetch_eq_timeoutError cfg now net lr rc hnet, dif_neg hge]
      exact ⟨by simp, fun i hi => absurd hi (by simp),
        fun _ => ⟨rfl, by simp⟩⟩
    case clientError name =>
      rw [fetch_eq_clientError cfg now net lr rc name hnet, dif_neg hge]
      exact ⟨by simp, fun i hi => absurd hi (by simp),
        fun _ => ⟨rfl, by simp⟩⟩
    case parseCrash name msg =>
      rw [fetch_eq_parseCrash cfg now net lr rc name msg hnet]
      refine ⟨by simp, fun i hi => absurd hi (by simp), fun htrans => ?_⟩
      have := htrans rc
      rw [hnet] at this
      simp [isTransient] at this
    case httpError code =>
      rw [fetch_eq_httpError cfg now net lr rc code hnet]
      refine ⟨by simp, fun i hi => absurd hi (by simp), fun htrans => ?_⟩
      have := htrans rc
      rw [hnet] at this
      simp [isTransient] at this
    case otherError name msg =>
      rw [fetch_eq_otherError cfg now net lr rc name msg hnet]
      refine ⟨by simp, fun i hi => absurd hi (by simp), fun htrans => ?_⟩
      have := htrans rc
      rw [hnet] at this
      simp [isTransient] at this
  | succ n ih =>
    intro rc hrc
    cases hnet : net rc
    case ok p =>
      rw [fetch_eq_ok cfg now net lr rc p hnet]
      refine ⟨by simp, fun i hi => absurd hi (by simp), fun htrans => ?_⟩
      have := htrans rc
      rw [hnet] at this
      simp [isTransient] at this
    case emptyBody =>
      rw [fetch_eq_emptyBody cfg now net lr rc hnet]
      by_cases hlt : rc < cfg.MAX_RETRIES
      · rw [dif_pos hlt]
        obtain ⟨ihlen, ihval, ihex⟩ := ih (rc + 1) (by omega)
        refine ⟨by simpa using by omega, ?_, fun htrans => ihex htrans⟩
        intro i hi
        cases i with
        | zero => simp
        | succ i =>
          have hi' : i <
              (fetch_tracking_status cfg now net lr (rc + 1)).2.length := by
            simpa using hi
          have harith : rc + (i + 1) = rc + 1 + i := by omega
          rw [harith]
          exact ihval i hi'
      · rw [dif_neg hlt]
        exact ⟨by simp, fun i hi => absurd hi (by simp),
          fun _ => ⟨rfl, by simp⟩⟩
    case invalidJson =>
      rw [fetch_eq_invalidJson cfg now net lr rc hnet]
      by_cases hlt : rc < cfg.MAX_RETRIES
      · rw [dif_pos hlt]
        obtain ⟨ihlen, ihval, ihex⟩ := ih (rc + 1) (by omega)
        refine ⟨by simpa using by omega, ?_, fun htrans => ihex htrans⟩
        intro i hi
        cases i with
        | zero => simp
        | succ i =>
          have hi' : i <
              (fetch_tracking_status cfg now net lr (rc + 1)).2.length := by
            simpa using hi
          have harith : rc + (i + 1) = rc + 1 + i := by omega
          rw [harith]
          exact ihval i hi'
      · rw [dif_neg hlt]
        exact ⟨by simp, fun i hi => absurd hi (by simp),
          fun _ => ⟨rfl, by simp⟩⟩
    case timeoutError =>
      rw [fetch_eq_timeoutError cfg now net lr rc hnet]
      by_cases hlt : rc < cfg.MAX_RETRIES
      · rw [dif_pos hlt]
        obtain ⟨ihlen, ihval, ihex⟩ := ih (rc + 1) (by omega)
        refine ⟨by simpa using by omega, ?_, fun htrans => ihex htrans⟩
        intro i hi
        cases i with
        | zero => simp
        | succ i =>
          have hi' : i <
              (fetch_tracking_status cfg now net lr (rc + 1)).2.length := by
            simpa using hi
          have harith : rc + (i + 1) = rc + 1 + i := by omega
          rw [harith]
          exact ihval i hi'
      · rw [dif_neg hlt]
        exact ⟨by simp, fun i hi => absurd hi (by simp),
          fun _ => ⟨rfl, by simp⟩⟩
    case clientError name =>
      rw [fetch_eq_clientError cfg now net lr rc name hnet]
      by_cases hlt : rc < cfg.MAX_RETRIES
      · rw [dif_pos hlt]
        obtain ⟨ihlen, ihval, ihex⟩ := ih (rc + 1) (by omega)
        refine ⟨by simpa using by omega, ?_, fun htrans => ihex htrans⟩
        intro i hi
        cases i with
        | zero => simp
        | succ i =>
          have hi' : i <
              (fetch_tracking_status cfg now net lr (rc + 1)).2.length := by
            simpa using hi
          have harith : rc + (i + 1) = rc + 1 + i := by omega
          rw [harith]
          exact ihval i hi'
      · rw [dif_neg hlt]
        exact ⟨by simp, fun i hi => absurd hi (by simp),
          fun _ => ⟨rfl, by simp⟩⟩
    case parseCrash name msg =>
      rw [fetch_eq_parseCrash cfg now net lr rc name msg hnet]
      refine ⟨by simp, fun i hi => absurd hi (by simp), fun htrans => ?_⟩
      have := htrans rc
      rw [hnet] at this
      simp [isTransient] at this
    case httpError code =>
      rw [fetch_eq_httpError cfg now net lr rc code hnet]
      refine ⟨by simp, fun i hi => absurd hi (by simp), fun htrans => ?_⟩
      have := htrans rc
      rw [hnet] at this
      simp [isTransient] at this
    case otherError name msg =>
      rw [fetch_eq_otherError cfg now net lr rc name msg hnet]
      refine ⟨by simp, fun i hi => absurd hi (by simp), fun htrans => ?_⟩
      have := htrans rc
      rw [hnet] at this
      simp [isTransient] at this

/-- C3: transient failures are retried with exponential backoff — the `i`-th
slept delay of a run started at `retry_count = 0` is
`RETRY_DELAY * RETRY_BACKOFF_FACTOR ^ i`; a network that is transiently
failing on every attempt ends in a terminal `"ERROR"` result with a non-null
error; and the two concrete scenarios: three empty bodies then a valid
response with `MAX_RETRIES = 3` yields the parse of the valid payload (after
delays 1, 2, 4), while the same under `MAX_RETRIES = 2` yields the terminal
`"ERROR"` result (after delays 1, 2). -/
theorem claim_C3_retry_backoff :
    ∀ (cfg : Config) (now : Int) (net : Nat → AttemptOutcome) (lr : String),
      (∀ (i : Nat)
        (hi : i < (fetch_tracking_status cfg now net lr 0).2.length),
        (fetch_tracking_status cfg now net lr 0).2.get ⟨i, hi⟩ =
          cfg.RETRY_DELAY * cfg.RETRY_BACKOFF_FACTOR ^ i) ∧
      ((∀ i, isTransient (net i) = true) →
        (fetch_tracking_status cfg now net lr 0).1.status = "ERROR" ∧
        (fetch_tracking_status cfg now net lr 0).1.error ≠ none) ∧
      fetch_tracking_status defaultConfig now emptyThenValid lr 0 =
        (parse_tracking_response defaultConfig now deliveredPayload lr,
         [1, 2, 4]) ∧
      fetch_tracking_status { defaultConfig with MAX_RETRIES := 2 } now
          emptyThenValid lr 0 =
        ({ lr_number := lr, status := "ERROR",
           error := some "JSON parse error after retries: ValueError" },
         [1, 2]) := by
  intro cfg now net lr
  obtain ⟨-, hval, hex⟩ :=
    fetch_retry_aux cfg now net lr cfg.MAX_RETRIES 0 (by omega)
  refine ⟨?_, hex, ?_, ?_⟩
  · intro i hi
    simpa using hval i hi
  · simp [fetch_tracking_status, emptyThenValid, defaultConfig]
  · simp [fetch_tracking_status, emptyThenValid, defaultConfig]
    rfl

/-- Witness for C3: a permanently timing-out network yields a terminal
`"ERROR"` with a non-null error. -/
theorem claim_C3_retry_backoff_witness :
    (fetch_tracking_status defaultConfig 0 (fun _ => .timeoutError) "W4"
        0).1.status = "ERROR" ∧
    (fetch_tracking_status defaultConfig 0 (fun _ => .timeoutError) "W4"
        0).1.error ≠ none :=
  (claim_C3_retry_backoff defaultConfig 0 (fun _ => .timeoutError)
      "W4").2.1 (fun _ => rfl)

/-- C10: the recursive retry always terminates within the retry budget —
every run sleeps at most `MAX_RETRIES` times, i.e. performs at most
`MAX_RETRIES + 1` attempts (one initial attempt plus one per slept delay),
whatever the network does (in particular under an infinite stream of
transient failures). -/
theorem claim_C10_retry_terminates :
    ∀ (cfg : Config) (now : Int) (net : Nat → AttemptOutcome) (lr : String),
      (fetch_tracking_status cfg now net lr 0).2.length + 1 ≤
        cfg.MAX_RETRIES + 1 := by
  intro cfg now net lr
  obtain ⟨hlen, -, -⟩ :=
    fetch_retry_aux cfg now net lr cfg.MAX_RETRIES 0 (by omega)
  omega

/-! ### Helper lemmas for the orchestrator -/

/-- Looking a task index up in the completion log always recovers that
task's own outcome, whatever the completion order: every log entry with
first component `j` was built from `outs.get? j`. -/
theorem completionLog_find (outs : List TaskOutcome) (j : Nat)
    (v : TaskOutcome) (hv : outs.get? j = some v) :
    ∀ sched : List Nat, j ∈ sched →
      (completionLog sched outs).find? (fun p => p.1 = j) = some (j, v) := by
  intro sched
  induction sched with
  | nil => intro h; exact absurd h (List.not_mem_nil j)
  | cons a t ihs =>
    intro hj
    have hstep : completionLog (a :: t) outs =
        (match outs.get? a with
         | none => completionLog t outs
         | some w => (a, w) :: completionLog t outs) := by
      simp only [completionLog, List.filterMap_cons]
      cases outs.get? a <;> rfl
    rcases eq_or_ne a j with rfl | hne
    · rw [hstep, hv]
      exact List.find?_cons_of_pos _ (by simp)
    · have hj' : j ∈ t := by
        rcases List.mem_cons.mp hj with h | h
        · exact absurd h.symm hne
        · exact h
      cases hga : outs.get? a with
      | none =>
        rw [hstep, hga]
        exact ihs hj'
      | some w =>
        rw [hstep, hga]
        have hx : List.find? (fun p => decide (p.1 = j))
              ((a, w) :: completionLog t outs) =
            List.find? (fun p => decide (p.1 = j)) (completionLog t outs) :=
          List.find?_cons_of_neg _ (by simp [hne])
        exact hx.trans (ihs hj')

/-- A `filterMap` over `range l.length` that returns `some (l.get j)` at
every index reproduces `l`. -/
theorem filterMap_range_get {α : Type} :
    ∀ (l : List α) (f : Nat → Option α),
      (∀ (j : Nat) (h : j < l.length), f j = some (l.get ⟨j, h⟩)) →
      (List.range l.length).filterMap f = l := by
  intro l
  induction l with
  | nil => intro f _; simp
  | cons a t ihl =>
    intro f hf
    rw [List.length_cons, List.range_succ_eq_map, List.filterMap_cons,
      hf 0 (by simp), List.filterMap_map]
    have ht : (List.range t.length).filterMap (f ∘ Nat.succ) = t :=
      ihl (f ∘ Nat.succ) (fun j h => hf (j + 1) (by simpa using h))
    rw [ht]
    rfl

/-- `asyncio.gather` reassembles any completion order that is a permutation
of the task indices back into task creation order. -/
theorem gatherInOrder_perm (outs : List TaskOutcome) (sched : List Nat)
    (hperm : sched.Perm (List.range outs.length)) :
    gatherInOrder sched outs = outs := by
  unfold gatherInOrder
  apply filterMap_range_get
  intro j h
  have hv : outs.get? j = some (outs.get ⟨j, h⟩) := List.get?_eq_get h
  have hjs : j ∈ sched := hperm.mem_iff.mpr (List.mem_range.mpr h)
  rw [completionLog_find outs j (outs.get ⟨j, h⟩) hv sched hjs]
  rfl

/-- C9: the batch result mapping does not depend on the order in which the
concurrent tasks complete — any two completion schedules (permutations of
the task indices) over the same deterministic backend produce the same
mapping, and that mapping is the one obtained by processing the backend's
responses in task creation order; hence two runs with identical responses
per identifier (and a fixed notion of current time, which enters only
through the pure backend) are identical. -/
theorem claim_C9_deterministic :
    ∀ (backend : String → TaskOutcome) (lrs : List String)
      (sched1 sched2 : List Nat),
      sched1.Perm (List.range lrs.length) →
      sched2.Perm (List.range lrs.length) →
      track_multiple_sched sched1 backend lrs =
        track_multiple_sched sched2 backend lrs ∧
      track_multiple_sched sched1 backend lrs =
        track_multiple_lr_numbers backend lrs := by
  intro backend lrs sched1 sched2 h1 h2
  have e1 : gatherInOrder sched1 (lrs.map backend) = lrs.map backend :=
    gatherInOrder_perm _ _ (by simpa using h1)
  have e2 : gatherInOrder sched2 (lrs.map backend) = lrs.map backend :=
    gatherInOrder_perm _ _ (by simpa using h2)
  unfold track_multiple_sched track_multiple_lr_numbers
  rw [e1, e2]
  exact ⟨rfl, rfl⟩

/-- Witness for C9: two tasks completing in reversed order produce the same
mapping as the creation-order run. -/
theorem claim_C9_deterministic_witness :
    track_multiple_sched [1, 0]
        (fun i => TaskOutcome.ok { lr_number := i, status := "Delivered" })
        ["A", "B"] =
      track_multiple_lr_numbers
        (fun i => TaskOutcome.ok { lr_number := i, status := "Delivered" })
        ["A", "B"] :=
  (claim_C9_deterministic
      (fun i => TaskOutcome.ok { lr_number := i, status := "Delivered" })
      ["A", "B"] [1, 0] [0, 1] (by decide) (by decide)).2

/-- C1 (the code, evaluated at the failing input): the aggregation loop of
`track_multiple_lr_numbers` skips a gathered outcome that is an exception,
so for the input list `["A"]` whose task raises, the returned mapping is
empty — the requested identifier `"A"` is silently omitted and no `"ERROR"`
entry is produced for it.  By contrast the same input with a returned
(non-raising) `"ERROR"` dictionary does key an entry under `"A"`.  This
contradicts the specified behaviour (an exception-raising task must still
contribute at least an `"ERROR"` entry), which the design notes list as a
known defect of the reference orchestrator. -/
theorem claim_C1_exception_outcome_dropped :
    track_multiple_lr_numbers (fun _ => TaskOutcome.exn "RuntimeError")
        ["A"] = [] ∧
    dictKeys (track_multiple_lr_numbers
        (fun _ => TaskOutcome.ok
          { lr_number := "A", status := "ERROR", error := some "boom" })
        ["A"]) = ["A"] := by
  decide

end SafeExpress
